import Mathlib

/-!
Shallow embedding of the MicroBridge converters
(`The_Source_Code/MicroBridge_CLI.py` and
`The_Source_Code/MicroBridge_GUI.py`).

Modelling conventions:
* A parsed XML element (`xml.dom.minidom` element node) is an `Elem`:
  its tag, the `data` of its text first child (if any), and its child
  elements in document order.  `getElementsByTagName` is `getTag`
  (all proper descendants with the given tag, in pre-order document
  order).  A first child that is itself an element carrying no `data`
  is merged with the no-first-child case.
* Python `float(s)` is `pyFloat?`: leading and trailing whitespace is
  ignored, an optional sign is followed by a plain decimal number;
  exponent forms, `inf`, `nan` and underscore separators are not
  modelled.  The parsed value is kept exactly as a decimal `Dec`
  (integer mantissa over a power of ten); `Dec.toRat` is its rational
  value.  Python `round` (banker's rounding to an integer) is
  `pyRound` on `ℚ`, and `pyRoundD` the same on `Dec`
  (`pyRoundD_eq` relates the two).
* File output is modelled as the list of structured lines (`OutLine`)
  written before the function returned or aborted, together with a
  `fileCreated` flag recording whether `open(out_path, "w")` ran.
  `OutLine.render` reproduces the exact string written for a line.
* The log stream (`print` in the CLI, `_enqueue_log` in the GUI) is a
  `List String` with the exact message texts; messages that
  interpolate filesystem paths are outside the embedding, as are the
  file-system errors themselves (the converters are modelled from the
  parsed region list / CSV row list onward).  Progress-bar queue
  items are not log lines and are not modelled.
-/

inductive Elem : Type where
  | mk (tag : String) (text : Option String) (kids : List Elem)

def Elem.tag : Elem → String
  | .mk t _ _ => t

def Elem.text : Elem → Option String
  | .mk _ tx _ => tx

def Elem.kids : Elem → List Elem
  | .mk _ _ ks => ks

mutual

/-- All proper descendant elements of an element, in document (pre-) order. -/
def Elem.desc : Elem → List Elem
  | .mk _ _ ks => descAux ks

def descAux : List Elem → List Elem
  | [] => []
  | e :: es => e :: (Elem.desc e ++ descAux es)

end

/-- `minidom` `getElementsByTagName`: descendants with the given tag, document order. -/
def getTag (e : Elem) (t : String) : List Elem :=
  (Elem.desc e).filter (fun d => d.tag == t)

/-- Python `str.strip()`: drop leading and trailing whitespace. -/
def strTrim (s : String) : String :=
  String.mk (((s.data.dropWhile Char.isWhitespace).reverse.dropWhile Char.isWhitespace).reverse)

/-- `MicroBridge_GUI._get_element_text`: safely return text from an element or `"0"`. -/
def get_element_text : Option Elem → String
  | none => "0"
  | some e =>
    match e.text with
    | none => "0"
    | some s => strTrim s

/-- An exact decimal number: the value `num / 10 ^ exp`. -/
structure Dec : Type where
  num : ℤ
  exp : ℕ
deriving DecidableEq

/-- Rational value of a decimal. -/
def Dec.toRat (d : Dec) : ℚ :=
  (d.num : ℚ) / ((10 ^ d.exp : ℕ) : ℚ)

/-- Exact division of a decimal by `1000`. -/
def decDiv1000 (d : Dec) : Dec :=
  ⟨d.num, d.exp + 3⟩

def natOfDigits (cs : List Char) : ℕ :=
  cs.foldl (fun a c => 10 * a + (c.toNat - 48)) 0

def parseUnsigned (cs : List Char) : Option Dec :=
  let ip := cs.takeWhile Char.isDigit
  let rest := cs.dropWhile Char.isDigit
  match rest with
  | [] => if ip.isEmpty then none else some ⟨(natOfDigits ip : ℤ), 0⟩
  | '.' :: fr =>
    if fr.all Char.isDigit && !(ip.isEmpty && fr.isEmpty) then
      some ⟨((natOfDigits ip * 10 ^ fr.length + natOfDigits fr : ℕ) : ℤ), fr.length⟩
    else none
  | _ => none

/-- Python `float(s)` on decimal input, `none` on `ValueError`. -/
def pyFloat? (s : String) : Option Dec :=
  match (strTrim s).data with
  | [] => none
  | '+' :: cs => parseUnsigned cs
  | '-' :: cs => (parseUnsigned cs).map (fun d => ⟨-d.num, d.exp⟩)
  | cs => parseUnsigned cs

/-- Python `round(q)`: round half to even, to an integer. -/
def pyRound (q : ℚ) : ℤ :=
  let n := ⌊q⌋
  let r := q - (n : ℚ)
  if r < 1 / 2 then n
  else if 1 / 2 < r then n + 1
  else if n % 2 = 0 then n else n + 1

/-- Python `round` on an exact decimal, by integer arithmetic. -/
def pyRoundD (d : Dec) : ℤ :=
  let den : ℤ := ((10 ^ d.exp : ℕ) : ℤ)
  let n := d.num / den
  let r2 := 2 * (d.num - n * den)
  if r2 < den then n
  else if den < r2 then n + 1
  else if n % 2 = 0 then n else n + 1

/-- The source's `int(round(value_nm / 1000))`, on an exact decimal. -/
def nmToUmD (d : Dec) : ℤ :=
  pyRoundD (decDiv1000 d)

/-- Specification-level nm→µm conversion: half-to-even rounding of `q / 1000`. -/
def nmToUm (q : ℚ) : ℤ :=
  pyRound (q / 1000)

/-- One line written to the output file. -/
inductive OutLine : Type where
  | xmlDecl
  | openImageData
  | globalCoordinates
  | calibX (i : ℕ) (v : ℤ)
  | calibY (i : ℕ) (v : ℤ)
  | shapeCount (n : ℕ)
  | shapeOpen (n : ℕ)
  | pointCount (n : ℕ)
  | coordX (i : ℕ) (v : ℤ)
  | coordY (i : ℕ) (v : ℤ)
  | shapeClose (n : ℕ)
  | closeImageData
deriving DecidableEq

/-- Exact text of each written line. -/
def OutLine.render : OutLine → String
  | .xmlDecl => "<?xml version=\"1.0\" encoding=\"utf-8\"?>\n"
  | .openImageData => "<ImageData>\n"
  | .globalCoordinates => "  <GlobalCoordinates>1</GlobalCoordinates>\n"
  | .calibX i v => s!"  <X_CalibrationPoint_{i}>{v}</X_CalibrationPoint_{i}>\n"
  | .calibY i v => s!"  <Y_CalibrationPoint_{i}>{v}</Y_CalibrationPoint_{i}>\n"
  | .shapeCount n => s!"  <ShapeCount>{n}</ShapeCount>\n"
  | .shapeOpen n => s!"  <Shape_{n}>\n"
  | .pointCount n => s!"    <PointCount>{n}</PointCount>\n"
  | .coordX i v => s!"    <X_{i}>{v}</X_{i}>\n"
  | .coordY i v => s!"    <Y_{i}>{v}</Y_{i}>\n"
  | .shapeClose n => s!"  </Shape_{n}>\n"
  | .closeImageData => "</ImageData>\n"

/-- The three header lines every converter writes first. -/
def lmdHeader : List OutLine :=
  [OutLine.xmlDecl, OutLine.openImageData, OutLine.globalCoordinates]

/-- Values of the `ShapeCount` lines of an output. -/
def shapeCountVals : List OutLine → List ℕ
  | [] => []
  | OutLine.shapeCount n :: t => n :: shapeCountVals t
  | _ :: t => shapeCountVals t

/-- Number of closed `Shape_N` blocks of an output. -/
def closedShapeCount : List OutLine → ℕ
  | [] => 0
  | OutLine.shapeClose _ :: t => closedShapeCount t + 1
  | _ :: t => closedShapeCount t

/-- Values of the `PointCount` lines of an output. -/
def pointCountVals : List OutLine → List ℕ
  | [] => []
  | OutLine.pointCount n :: t => n :: pointCountVals t
  | _ :: t => pointCountVals t

/-- Values of the shape coordinate lines (`X_i` and `Y_i`) of an output, in order. -/
def coordVals : List OutLine → List ℤ
  | [] => []
  | OutLine.coordX _ v :: t => v :: coordVals t
  | OutLine.coordY _ v :: t => v :: coordVals t
  | _ :: t => coordVals t

/-- Values of the calibration lines of an output, in order. -/
def calibVals : List OutLine → List ℤ
  | [] => []
  | OutLine.calibX _ v :: t => v :: calibVals t
  | OutLine.calibY _ v :: t => v :: calibVals t
  | _ :: t => calibVals t

/-- Concatenation of the lists produced for each entry. -/
def seqJoin {α β : Type} (f : α → List β) : List α → List β
  | [] => []
  | a :: as => f a ++ seqJoin f as

/-- Which extraction strategy produced a calibration pair. -/
inductive CalSource : Type where
  | circle
  | plist
deriving DecidableEq

/-- Outcome of one conversion call: the returned boolean, whether the output
file was opened for writing, the lines written to it, and the log messages. -/
structure ConvOutcome where
  ok : Bool
  fileCreated : Bool
  out : List OutLine
  log : List String

/-- CLI text value of a coordinate node: a node with no text first child reads
as `0` (the source's `... if elem.firstChild else 0`), otherwise `float(data)`. -/
def cliPointVal (e : Elem) : Option Dec :=
  match e.text with
  | none => some ⟨0, 0⟩
  | some s => pyFloat? s

/-- CLI region title (`title_elem[0].firstChild.data` or the given default). -/
def cliTitle (r : Elem) (dflt : String) : String :=
  match getTag r "title" with
  | [] => dflt
  | t :: _ =>
    match t.text with
    | none => dflt
    | some d => d

/-- CLI Method 1 raw values: `x`/`y` descendants of the first `annotation` descendant. -/
def circleRawCli (r : Elem) : Option (Dec × Dec) :=
  match getTag r "annotation" with
  | [] => none
  | a :: _ =>
    match getTag a "x", getTag a "y" with
    | xe :: _, ye :: _ =>
      match cliPointVal xe, cliPointVal ye with
      | some x, some y => some (x, y)
      | _, _ => none
    | _, _ => none

/-- CLI Method 1, after nm→µm conversion. -/
def circleTryCli (r : Elem) : Option (ℤ × ℤ) :=
  (circleRawCli r).map (fun q => (nmToUmD q.1, nmToUmD q.2))

/-- CLI Method 2: first `point` descendant of the region; a point without `x`
or `y` descendants raises `IndexError` (modelled as `.error`), aborting the
conversion; a `ValueError` is caught and leaves the pair unresolved. -/
def pointlistTryCli (r : Elem) : Except Unit (Option (ℤ × ℤ)) :=
  match getTag r "point" with
  | [] => .ok none
  | p :: _ =>
    match getTag p "x", getTag p "y" with
    | xe :: _, ye :: _ =>
      match cliPointVal xe, cliPointVal ye with
      | some x, some y => .ok (some (nmToUmD x, nmToUmD y))
      | _, _ => .ok none
    | _, _ => .error ()

/-- CLI calibration resolution: Method 1 first, Method 2 only if Method 1
yielded nothing. -/
def cliCalibResolve (r : Elem) : Except Unit (Option ((ℤ × ℤ) × CalSource)) :=
  match circleTryCli r with
  | some p => .ok (some (p, CalSource.circle))
  | none =>
    match pointlistTryCli r with
    | .error _ => .error ()
    | .ok (some p) => .ok (some (p, CalSource.plist))
    | .ok none => .ok none

/-- One CLI calibration region (index `idx`, 0-based): written lines and log
on success, or log of the failure (nothing written for this region) on error. -/
def cliCalibStep (flag : Bool) (idx : ℕ) (r : Elem) :
    Except (List OutLine × List String) (List OutLine × List String) :=
  let k := idx + 1
  let title := cliTitle r "Unnamed"
  match cliCalibResolve r with
  | .error _ => .error ([], [])
  | .ok (some ((x, y), CalSource.circle)) =>
    .ok ([OutLine.calibX k x, OutLine.calibY k y],
      [s!"  Calibration Point {k} (\x27{title}\x27): X={x} µm, Y={y} µm (from circle annotation)"])
  | .ok (some ((x, y), CalSource.plist)) =>
    .ok ([OutLine.calibX k x, OutLine.calibY k y],
      [s!"  Calibration Point {k} (\x27{title}\x27): X={x} µm, Y={y} µm (from pointlist)"])
  | .ok none =>
    let errLine := s!"  ERROR: Calibration region {k} (\x27{title}\x27) has no valid coordinates!"
    if flag then
      .ok ([OutLine.calibX k 0, OutLine.calibY k 0],
        [errLine,
         "  WARNING: Using placeholder coordinates (0,0) - LMD system may malfunction!",
         s!"  Calibration Point {k} (\x27{title}\x27): X=0 µm, Y=0 µm (placeholder)"])
    else
      .error ([],
        [errLine,
         "\n✗ CONVERSION FAILED",
         s!"  Calibration point {k} is missing valid coordinate data.",
         "  The LMD system requires accurate calibration points to function correctly.",
         "\n  To fix this issue:",
         "    1. Open the file in NDP.view2",
         "    2. Ensure the first 3 regions have valid annotations",
         "    3. Use circle annotations for calibration points (recommended)",
         "\n  To force conversion with placeholder (0,0) coordinates, use --force flag"])

/-- CLI calibration loop over the first three regions. -/
def cliCalibLoop (flag : Bool) :
    ℕ → List Elem → Except (List OutLine × List String) (List OutLine × List String)
  | _, [] => .ok ([], [])
  | i, r :: rs =>
    match cliCalibStep flag i r with
    | .error e => .error e
    | .ok (o1, l1) =>
      match cliCalibLoop flag (i + 1) rs with
      | .error (o2, l2) => .error (o1 ++ o2, l1 ++ l2)
      | .ok (o2, l2) => .ok (o1 ++ o2, l1 ++ l2)

/-- A surviving shape candidate: its (source-index derived) number, title and points. -/
structure ShapeData where
  shape_num : ℕ
  title : String
  pts : List Elem

/-- CLI first pass over regions 3..: keep regions with at least one `point`
descendant; `shape_num` is `shape_idx - 2`, i.e. position (1-based) among ALL
candidates, not among survivors. -/
def cliValidShapesFrom : ℕ → List Elem → List ShapeData
  | _, [] => []
  | i, r :: rs =>
    let num := i + 1
    let title := cliTitle r s!"Shape_{num}"
    let pts := getTag r "point"
    let rest := cliValidShapesFrom (i + 1) rs
    if pts.length > 0 then ⟨num, title, pts⟩ :: rest else rest

def cliValidShapes (regions : List Elem) : List ShapeData :=
  cliValidShapesFrom 0 (regions.drop 3)

/-- CLI: write one vertex; a point with no `x`/`y` descendant (`IndexError`)
or unparseable text (`ValueError`) aborts the whole conversion. -/
def cliWritePoint (i : ℕ) (p : Elem) : Except Unit (List OutLine) :=
  match getTag p "x", getTag p "y" with
  | xe :: _, ye :: _ =>
    match cliPointVal xe, cliPointVal ye with
    | some x, some y =>
      .ok [OutLine.coordX (i + 1) (nmToUmD x), OutLine.coordY (i + 1) (nmToUmD y)]
    | _, _ => .error ()
  | _, _ => .error ()

def cliWritePoints : ℕ → List Elem → Except (List OutLine) (List OutLine)
  | _, [] => .ok []
  | i, p :: ps =>
    match cliWritePoint i p with
    | .error _ => .error []
    | .ok ls =>
      match cliWritePoints (i + 1) ps with
      | .error ls2 => .error (ls ++ ls2)
      | .ok ls2 => .ok (ls ++ ls2)

def cliWriteShape (s : ShapeData) :
    Except (List OutLine × List String) (List OutLine × List String) :=
  let num := s.shape_num
  let title := s.title
  let np := s.pts.length
  let lg := [s!"  Shape {num} (\x27{title}\x27): {np} vertices"]
  let head := [OutLine.shapeOpen num, OutLine.pointCount np]
  match cliWritePoints 0 s.pts with
  | .ok ls => .ok (head ++ ls ++ [OutLine.shapeClose num], lg)
  | .error ls => .error (head ++ ls, lg)

def cliShapesLoop :
    List ShapeData → Except (List OutLine × List String) (List OutLine × List String)
  | [] => .ok ([], [])
  | s :: ss =>
    match cliWriteShape s with
    | .error e => .error e
    | .ok (o1, l1) =>
      match cliShapesLoop ss with
      | .error (o2, l2) => .error (o1 ++ o2, l1 ++ l2)
      | .ok (o2, l2) => .ok (o1 ++ o2, l1 ++ l2)

/-- `MicroBridge_CLI.convert_ndpa_to_lmd`, from the parsed `ndpviewstate`
region list onward. -/
def convert_ndpa_to_lmd (regions : List Elem) (allow_missing_calibration : Bool) :
    ConvOutcome :=
  let n := regions.length
  let l0 := [s!"Found {n} regions in the file"]
  if n < 3 then
    ⟨false, false, [],
      l0 ++ [s!"WARNING: Found only {n} regions. Need at least 4 (3 calibration + 1 shape)",
             "ERROR: Need at least 3 regions for calibration points!"]⟩
  else
    let lw :=
      if n < 4 then
        [s!"WARNING: Found only {n} regions. Need at least 4 (3 calibration + 1 shape)",
         "Proceeding with available regions..."]
      else []
    let l1 := l0 ++ lw ++ ["\nProcessing calibration points..."]
    match cliCalibLoop allow_missing_calibration 0 (regions.take 3) with
    | .error (o, lg) => ⟨false, true, lmdHeader ++ o, l1 ++ lg⟩
    | .ok (o, lg) =>
      let shapes := cliValidShapes regions
      let k := shapes.length
      let l2 := [s!"\nProcessing {k} capture shapes..."]
      match cliShapesLoop shapes with
      | .error (o2, lg2) =>
        ⟨false, true, lmdHeader ++ o ++ [OutLine.shapeCount k] ++ o2, l1 ++ lg ++ l2 ++ lg2⟩
      | .ok (o2, lg2) =>
        ⟨true, true,
         lmdHeader ++ o ++ [OutLine.shapeCount k] ++ o2 ++ [OutLine.closeImageData],
         l1 ++ lg ++ l2 ++ lg2 ++
           ["\n✓ Conversion complete!",
            s!"  Total regions processed: {n}",
            "    - 3 calibration/reference points",
            s!"    - {k} capture shapes"]⟩

/-- GUI node value: `float(_get_element_text(...))`. -/
def guiPointVal (p : Elem) (t : String) : Option Dec :=
  pyFloat? (get_element_text ((getTag p t).head?))

/-- GUI region title (`_get_element_text(title_elem[0])` or the given default). -/
def guiTitle (r : Elem) (dflt : String) : String :=
  match getTag r "title" with
  | [] => dflt
  | t :: _ => get_element_text (some t)

/-- GUI Method 1 raw values: `x`/`y` descendants of the first `annotation` descendant. -/
def circleRawGui (r : Elem) : Option (Dec × Dec) :=
  match getTag r "annotation" with
  | [] => none
  | a :: _ =>
    match getTag a "x", getTag a "y" with
    | xe :: _, ye :: _ =>
      match pyFloat? (get_element_text (some xe)), pyFloat? (get_element_text (some ye)) with
      | some x, some y => some (x, y)
      | _, _ => none
    | _, _ => none

/-- GUI Method 1, after nm→µm conversion. -/
def circleTryGui (r : Elem) : Option (ℤ × ℤ) :=
  (circleRawGui r).map (fun q => (nmToUmD q.1, nmToUmD q.2))

/-- GUI Method 2 raw values: first `point` of the first `pointlist`; a missing
`x`/`y` element reads as `"0"` via `_get_element_text`. -/
def pointlistRawGui (r : Elem) : Option (Dec × Dec) :=
  match getTag r "pointlist" with
  | [] => none
  | pl :: _ =>
    match getTag pl "point" with
    | [] => none
    | pt :: _ =>
      match guiPointVal pt "x", guiPointVal pt "y" with
      | some x, some y => some (x, y)
      | _, _ => none

/-- GUI Method 2, after nm→µm conversion. -/
def pointlistTryGui (r : Elem) : Option (ℤ × ℤ) :=
  (pointlistRawGui r).map (fun q => (nmToUmD q.1, nmToUmD q.2))

/-- GUI calibration resolution: Method 1 first, Method 2 only if Method 1
yielded nothing. -/
def guiCalibResolve (r : Elem) : Option ((ℤ × ℤ) × CalSource) :=
  match circleTryGui r with
  | some p => some (p, CalSource.circle)
  | none =>
    match pointlistTryGui r with
    | some p => some (p, CalSource.plist)
    | none => none

/-- One GUI calibration region; the GUI has no placeholder policy: an
unresolved pair always fails the conversion. -/
def guiCalibStep (i : ℕ) (r : Elem) :
    Except (List OutLine × List String) (List OutLine × List String) :=
  let k := i + 1
  let title := guiTitle r s!"Region_{i}"
  match guiCalibResolve r with
  | some ((x, y), CalSource.circle) =>
    .ok ([OutLine.calibX k x, OutLine.calibY k y],
      [s!"  Calibration {k} ({title}): X={x}, Y={y} (from circle annotation)"])
  | some ((x, y), CalSource.plist) =>
    .ok ([OutLine.calibX k x, OutLine.calibY k y],
      [s!"  Calibration {k} ({title}): X={x}, Y={y} (from pointlist)"])
  | none =>
    .error ([],
      [s!"  ✗ ERROR: Calibration point {k} ({title}) has no valid coordinates!",
       "  CONVERSION FAILED - Missing calibration data",
       "  The LMD system requires accurate calibration points.",
       "\n  To fix this issue:",
       "    1. Open the file in NDP.view2",
       "    2. Ensure the first 3 regions have valid annotations",
       "    3. Use circle annotations for calibration points (recommended)"])

def guiCalibLoop :
    ℕ → List Elem → Except (List OutLine × List String) (List OutLine × List String)
  | _, [] => .ok ([], [])
  | i, r :: rs =>
    match guiCalibStep i r with
    | .error e => .error e
    | .ok (o1, l1) =>
      match guiCalibLoop (i + 1) rs with
      | .error (o2, l2) => .error (o1 ++ o2, l1 ++ l2)
      | .ok (o2, l2) => .ok (o1 ++ o2, l1 ++ l2)

/-- GUI first pass over regions 3..: keep regions whose first `pointlist` has
at least one `point`; `shape_num` is `si - 2`, i.e. position (1-based) among
ALL candidates, not among survivors. -/
def guiValidShapesFrom : ℕ → List Elem → List ShapeData
  | _, [] => []
  | i, r :: rs =>
    let num := i + 1
    let title := guiTitle r s!"Shape_{num}"
    let rest := guiValidShapesFrom (i + 1) rs
    match getTag r "pointlist" with
    | [] => rest
    | pl :: _ =>
      match getTag pl "point" with
      | [] => rest
      | p :: ps => ⟨num, title, p :: ps⟩ :: rest

def guiValidShapes (regions : List Elem) : List ShapeData :=
  guiValidShapesFrom 0 (regions.drop 3)

/-- GUI vertex loop: a vertex whose `x` or `y` text does not parse raises
`ValueError`, aborting the conversion (missing elements read as `"0"`). -/
def guiWritePoints : ℕ → List Elem → Except (List OutLine) (List OutLine)
  | _, [] => .ok []
  | i, p :: ps =>
    match guiPointVal p "x", guiPointVal p "y" with
    | some x, some y =>
      let ls := [OutLine.coordX (i + 1) (nmToUmD x), OutLine.coordY (i + 1) (nmToUmD y)]
      match guiWritePoints (i + 1) ps with
      | .error ls2 => .error (ls ++ ls2)
      | .ok ls2 => .ok (ls ++ ls2)
    | _, _ => .error []

/-- GUI: write one shape block.  The first-point debug log re-parses the first
point before the vertex loop and can itself raise `ValueError`, after the
block header and point count were already written. -/
def guiWriteShape (s : ShapeData) :
    Except (List OutLine × List String) (List OutLine × List String) :=
  let num := s.shape_num
  let title := s.title
  let np := s.pts.length
  let head := [OutLine.shapeOpen num, OutLine.pointCount np]
  match s.pts with
  | [] => .ok (head ++ [OutLine.shapeClose num], [])
  | fp :: _ =>
    match guiPointVal fp "x", guiPointVal fp "y" with
    | some fx, some fy =>
      let fxu := nmToUmD fx
      let fyu := nmToUmD fy
      let lg := [s!"  Shape {num} ({title}) : {np} points, first=({fxu}, {fyu})"]
      match guiWritePoints 0 s.pts with
      | .ok ls => .ok (head ++ ls ++ [OutLine.shapeClose num], lg)
      | .error ls => .error (head ++ ls, lg)
    | _, _ => .error (head, [])

def guiShapesLoop :
    List ShapeData → Except (List OutLine × List String) (List OutLine × List String)
  | [] => .ok ([], [])
  | s :: ss =>
    match guiWriteShape s with
    | .error e => .error e
    | .ok (o1, l1) =>
      match guiShapesLoop ss with
      | .error (o2, l2) => .error (o1 ++ o2, l1 ++ l2)
      | .ok (o2, l2) => .ok (o1 ++ o2, l1 ++ l2)

/-- `MicroBridge_GUI.convert_ndpa_file`, from the parsed `ndpviewstate`
region list onward. -/
def convert_ndpa_file (regions : List Elem) : ConvOutcome :=
  let n := regions.length
  let l0 := [s!"  Found {n} regions"]
  if n < 3 then
    ⟨false, false, [], l0 ++ ["  ✗ ERROR: Need at least 3 regions for calibration points!"]⟩
  else
    let l1 := l0 ++ ["  DEBUG: Processing calibration points from regions 0-2"]
    match guiCalibLoop 0 (regions.take 3) with
    | .error (o, lg) => ⟨false, true, lmdHeader ++ o, l1 ++ lg⟩
    | .ok (o, lg) =>
      let shapes := guiValidShapes regions
      let k := shapes.length
      let m := n - 1
      let l2 := [s!"  DEBUG: Processing {k} shapes from regions 3-{m}"]
      match guiShapesLoop shapes with
      | .error (o2, lg2) =>
        ⟨false, true, lmdHeader ++ o ++ [OutLine.shapeCount k] ++ o2, l1 ++ lg ++ l2 ++ lg2⟩
      | .ok (o2, lg2) =>
        ⟨true, true,
         lmdHeader ++ o ++ [OutLine.shapeCount k] ++ o2 ++ [OutLine.closeImageData],
         l1 ++ lg ++ l2 ++ lg2 ++
           ["  DEBUG: Conversion complete - check calibration point coordinates"]⟩

/-- CSV row coordinates (columns 5 and 6, 0-indexed): a row with fewer than 7
columns, or whose column 5 or 6 does not parse, yields `(0.0, 0.0)`. -/
def rowPair (row : List String) : Dec × Dec :=
  if row.length ≥ 7 then
    match pyFloat? (row.getD 5 ""), pyFloat? (row.getD 6 "") with
    | some x, some y => (x, y)
    | _, _ => (⟨0, 0⟩, ⟨0, 0⟩)
  else (⟨0, 0⟩, ⟨0, 0⟩)

/-- CSV calibration section: the first three data rows, already in µm. -/
def csvCalibFrom : ℕ → List (List String) → List OutLine
  | _, [] => []
  | i, row :: rest =>
    let k := i + 1
    let q := rowPair row
    OutLine.calibX k (pyRoundD q.1) :: OutLine.calibY k (pyRoundD q.2) :: csvCalibFrom (i + 1) rest

/-- CSV shape section: each later data row becomes a single-point shape. -/
def csvShapesFrom : ℕ → List (List String) → List OutLine
  | _, [] => []
  | i, row :: rest =>
    let num := i + 1
    let q := rowPair row
    OutLine.shapeOpen num :: OutLine.pointCount 1 :: OutLine.coordX 1 (pyRoundD q.1)
      :: OutLine.coordY 1 (pyRoundD q.2) :: OutLine.shapeClose num :: csvShapesFrom (i + 1) rest

/-- `MicroBridge_GUI.convert_csv_file`, from the parsed row list onward
(`rawRows` are the parsed CSV records; empty records are discarded by the
source's `if r` filter). -/
def convert_csv_file (rawRows : List (List String)) : ConvOutcome :=
  let rows := rawRows.filter (fun r => !r.isEmpty)
  let m := rows.length
  let l0 := [s!"  Found {m} rows in CSV"]
  if m < 4 then
    ⟨false, false, [], l0 ++ ["  ✗ ERROR: Need at least 4 rows (header + 3 calibration points)"]⟩
  else
    let data := rows.drop 1
    if data.length < 3 then
      ⟨false, false, [], l0 ++ ["  ✗ ERROR: Need at least 3 data rows for calibration points"]⟩
    else
      let num_shapes := max 0 (data.length - 3)
      let l1 := ["  ⚠️ Note: CSV contains centroids only; polygons unavailable",
                 s!"  Creating single-point shapes for {num_shapes} regions"]
      ⟨true, true,
       lmdHeader ++ csvCalibFrom 0 (data.take 3) ++ [OutLine.shapeCount num_shapes] ++
         csvShapesFrom 0 (data.drop 3) ++ [OutLine.closeImageData],
       l0 ++ l1 ++ ["  ⚠️ CSV export lacks polygon vertices - use NDPA format for full shape data"]⟩

/-- Lines a calibration step may write. -/
def isCalibLine : OutLine → Bool
  | .calibX _ _ => true
  | .calibY _ _ => true
  | _ => false

/-- Raw decimal value a CLI vertex write reads for tag `t` (meaningful when the
write succeeds). -/
def ptRawCli (p : Elem) (t : String) : Dec :=
  (((getTag p t).head?).bind cliPointVal).getD ⟨0, 0⟩

/-- The data rows of a CSV input: nonblank records minus the header. -/
def csvData (rawRows : List (List String)) : List (List String) :=
  (rawRows.filter (fun r => !r.isEmpty)).drop 1

/-- The two µm coordinates a CSV row contributes. -/
def csvRowUms (row : List String) : List Dec :=
  [(rowPair row).1, (rowPair row).2]

/-- The CSV conversion log as a function of the nonblank row count alone. -/
def csvLogOf (m : ℕ) : List String :=
  if m < 4 then
    [s!"  Found {m} rows in CSV",
     "  ✗ ERROR: Need at least 4 rows (header + 3 calibration points)"]
  else if m - 1 < 3 then
    [s!"  Found {m} rows in CSV",
     "  ✗ ERROR: Need at least 3 data rows for calibration points"]
  else
    [s!"  Found {m} rows in CSV",
     "  ⚠️ Note: CSV contains centroids only; polygons unavailable",
     s!"  Creating single-point shapes for {m - 4} regions",
     "  ⚠️ CSV export lacks polygon vertices - use NDPA format for full shape data"]

def pointlistCrashCli (r : Elem) : Bool :=
  match pointlistTryCli r with
  | .error _ => true
  | _ => false

/-- Neither Method 1 nor Method 2 resolved the calibration pair. -/
def calibMissingCli (r : Elem) : Bool :=
  match cliCalibResolve r with
  | .ok none => true
  | _ => false

/-- The CLI shape-writing pass raises no exception on these regions. -/
def cliShapesOk (regions : List Elem) : Bool :=
  match cliShapesLoop (cliValidShapes regions) with
  | .ok _ => true
  | _ => false

/-- A circle-style calibration region. -/
def calRegion (t x y : String) : Elem :=
  Elem.mk "ndpviewstate" none
    [Elem.mk "title" (some t) [],
     Elem.mk "annotation" none [Elem.mk "x" (some x) [], Elem.mk "y" (some y) []]]

/-- A freehand region: an `annotation` holding a `pointlist` of `point`s. -/
def freehandRegion (t : String) (pts : List (String × String)) : Elem :=
  Elem.mk "ndpviewstate" none
    [Elem.mk "title" (some t) [],
     Elem.mk "annotation" none
       [Elem.mk "pointlist" none
         (pts.map (fun p => Elem.mk "point" none
           [Elem.mk "x" (some p.1) [], Elem.mk "y" (some p.2) []]))]]

/-- Three circle calibration regions, a candidate with no points (dropped by
the zero-point filter), then a real freehand shape — the inline fixture of
`tests/test_gui_conversion.py::test_shape_with_no_pointlist_is_skipped`. -/
def demoGap : List Elem :=
  [calRegion "Cal_1" "100000000" "200000000",
   calRegion "Cal_2" "150000000" "250000000",
   calRegion "Cal_3" "200000000" "300000000",
   calRegion "Mystery_Region" "500000000" "600000000",
   freehandRegion "Real_Shape" [("300000000", "400000000"), ("350000000", "450000000")]]

/-- First region has no resolvable coordinates; the rest are fine. -/
def demoMissing : List Elem :=
  [Elem.mk "ndpviewstate" none [Elem.mk "title" (some "Point1_Missing") []],
   calRegion "Cal_2" "150000000" "250000000",
   calRegion "Cal_3" "200000000" "300000000",
   freehandRegion "Shape_A" [("300000000", "400000000")]]

/-- A shape whose first point has whitespace-only `x` text. -/
def demoWs : List Elem :=
  [calRegion "Cal_1" "100000000" "200000000",
   calRegion "Cal_2" "150000000" "250000000",
   calRegion "Cal_3" "200000000" "300000000",
   freehandRegion "WsShape" [("   ", "400000000")]]

/-- A calibration region whose first `annotation` has `x`/`y` only as deeper
descendants (inside a wrapper), plus a `pointlist` with a different first
point. -/
def nestedCalRegion : Elem :=
  Elem.mk "ndpviewstate" none
    [Elem.mk "title" (some "Nested") [],
     Elem.mk "annotation" none
       [Elem.mk "wrap" none [Elem.mk "x" (some "5000000") [], Elem.mk "y" (some "6000000") []],
        Elem.mk "pointlist" none
          [Elem.mk "point" none
            [Elem.mk "x" (some "7000000") [], Elem.mk "y" (some "8000000") []]]]]

/-- CSV: header, a short (3-column) first data row, two valid data rows. -/
def csvBad : List (List String) :=
  [["A", "B", "C", "D", "E", "X", "Y"], ["1", "2", "3"],
   ["1", "2", "3", "4", "5", "100", "200"], ["1", "2", "3", "4", "5", "150", "250"]]

/-- The same CSV with the short row replaced by a fully valid zero row. -/
def csvGood : List (List String) :=
  [["A", "B", "C", "D", "E", "X", "Y"], ["1", "2", "3", "4", "5", "0", "0"],
   ["1", "2", "3", "4", "5", "100", "200"], ["1", "2", "3", "4", "5", "150", "250"]]

/-- Modelled from the spec claim wording for C6 only: a circle strategy that
reads the `x`/`y` DIRECT children of the first `annotation` descendant, with
the pointlist fallback unchanged; the code's own strategy reads any `x`/`y`
descendants instead. -/
def specCircleDirect (r : Elem) : Option (ℤ × ℤ) :=
  match getTag r "annotation" with
  | [] => none
  | a :: _ =>
    match a.kids.filter (fun d => d.tag == "x"), a.kids.filter (fun d => d.tag == "y") with
    | xe :: _, ye :: _ =>
      match pyFloat? (get_element_text (some xe)), pyFloat? (get_element_text (some ye)) with
      | some x, some y => some (nmToUmD x, nmToUmD y)
      | _, _ => none
    | _, _ => none

/-- Modelled from the spec claim wording for C6 only: resolution using the
direct-children circle strategy first, then the pointlist fallback. -/
def specCalibResolve (r : Elem) : Option ((ℤ × ℤ) × CalSource) :=
  match specCircleDirect r with
  | some p => some (p, CalSource.circle)
  | none =>
    match pointlistTryGui r with
    | some p => some (p, CalSource.plist)
    | none => none

/-- Raw decimal nanometre values read for the surviving CLI shapes, in the
order they are written. -/
def cliRawVals (regions : List Elem) : List Dec :=
  seqJoin (fun s => seqJoin (fun p => [ptRawCli p "x", ptRawCli p "y"]) s.pts)
    (cliValidShapes regions)

/-- A region with no `annotation` element at all, only a bare pointlist: the
circle strategy finds nothing and the fallback must fire. -/
def bareRegion : Elem :=
  Elem.mk "ndpviewstate" none
    [Elem.mk "title" (some "Bare") [],
     Elem.mk "pointlist" none
       [Elem.mk "point" none
         [Elem.mk "x" (some "300000000") [], Elem.mk "y" (some "400000000") []]]]

theorem pyRoundD_eq (d : Dec) : pyRoundD d = pyRound d.toRat := by
  obtain ⟨a, e⟩ := d
  have hbpos : (0 : ℤ) < ((10 ^ e : ℕ) : ℤ) := by positivity
  have hbq : (0 : ℚ) < (((10 ^ e : ℕ) : ℤ) : ℚ) := by exact_mod_cast hbpos
  have hfloor : ⌊((a : ℚ) / ((10 ^ e : ℕ) : ℚ))⌋ = a / ((10 ^ e : ℕ) : ℤ) := by
    exact_mod_cast Rat.floor_intCast_div_natCast a (10 ^ e)
  simp only [pyRoundD, pyRound, Dec.toRat]
  rw [hfloor]
  set bz : ℤ := ((10 ^ e : ℕ) : ℤ) with hbz
  set n0 : ℤ := a / bz with hn0
  set m : ℤ := a - n0 * bz with hm
  have hr : (a : ℚ) / ((10 ^ e : ℕ) : ℚ) - (n0 : ℚ) = (m : ℚ) / (bz : ℚ) := by
    have hbne : ((bz : ℤ) : ℚ) ≠ 0 := ne_of_gt hbq
    have hcast : ((10 ^ e : ℕ) : ℚ) = ((bz : ℤ) : ℚ) := by
      rw [hbz]; push_cast; ring
    rw [hcast]
    field_simp
    rw [hm]
    push_cast
    ring
  rw [hr]
  have h1 : ((m : ℚ) / (bz : ℚ) < 1 / 2) ↔ (2 * m < bz) := by
    rw [div_lt_div_iff₀ hbq (by norm_num : (0 : ℚ) < 2)]
    constructor
    · intro h
      have hmul : ((m * 2 : ℤ) : ℚ) < ((bz : ℤ) : ℚ) := by push_cast; linarith
      have hz : m * 2 < bz := by exact_mod_cast hmul
      linarith
    · intro h
      have hmul : ((2 * m : ℤ) : ℚ) < (bz : ℚ) := by exact_mod_cast h
      push_cast at hmul
      linarith
  have h2 : (1 / 2 < (m : ℚ) / (bz : ℚ)) ↔ (bz < 2 * m) := by
    rw [div_lt_div_iff₀ (by norm_num : (0 : ℚ) < 2) hbq]
    constructor
    · intro h
      have hmul : (bz : ℚ) < ((2 * m : ℤ) : ℚ) := by push_cast; linarith
      exact_mod_cast hmul
    · intro h
      have hmul : ((bz : ℤ) : ℚ) < ((2 * m : ℤ) : ℚ) := by exact_mod_cast h
      push_cast at hmul
      linarith
  simp only [h1, h2]

theorem decDiv1000_toRat (d : Dec) : (decDiv1000 d).toRat = d.toRat / 1000 := by
  obtain ⟨a, e⟩ := d
  simp only [decDiv1000, Dec.toRat]
  push_cast
  rw [pow_add]
  norm_num
  rw [div_div]

theorem nmToUmD_eq (d : Dec) : nmToUmD d = nmToUm d.toRat := by
  rw [nmToUmD, nmToUm, pyRoundD_eq, decDiv1000_toRat]

theorem shapeCountVals_append (l1 l2 : List OutLine) :
    shapeCountVals (l1 ++ l2) = shapeCountVals l1 ++ shapeCountVals l2 := by
  induction l1 with
  | nil => rfl
  | cons a t ih => cases a <;> simp [shapeCountVals, ih]

theorem closedShapeCount_append (l1 l2 : List OutLine) :
    closedShapeCount (l1 ++ l2) = closedShapeCount l1 + closedShapeCount l2 := by
  induction l1 with
  | nil => simp [closedShapeCount]
  | cons a t ih => cases a <;> simp [closedShapeCount, ih, Nat.add_right_comm]

theorem pointCountVals_append (l1 l2 : List OutLine) :
    pointCountVals (l1 ++ l2) = pointCountVals l1 ++ pointCountVals l2 := by
  induction l1 with
  | nil => rfl
  | cons a t ih => cases a <;> simp [pointCountVals, ih]

theorem coordVals_append (l1 l2 : List OutLine) :
    coordVals (l1 ++ l2) = coordVals l1 ++ coordVals l2 := by
  induction l1 with
  | nil => rfl
  | cons a t ih => cases a <;> simp [coordVals, ih]

theorem calibVals_append (l1 l2 : List OutLine) :
    calibVals (l1 ++ l2) = calibVals l1 ++ calibVals l2 := by
  induction l1 with
  | nil => rfl
  | cons a t ih => cases a <;> simp [calibVals, ih]

theorem metrics_calib (l : List OutLine) (h : ∀ x ∈ l, isCalibLine x = true) :
    shapeCountVals l = [] ∧ closedShapeCount l = 0 ∧ coordVals l = [] ∧
      pointCountVals l = [] := by
  induction l with
  | nil => exact ⟨rfl, rfl, rfl, rfl⟩
  | cons a t ih =>
    have ha := h a (List.mem_cons_self a t)
    obtain ⟨h1, h2, h3, h4⟩ := ih (fun x hx => h x (List.mem_cons_of_mem a hx))
    cases a <;> simp [isCalibLine] at ha <;>
      exact ⟨by simp [shapeCountVals, h1], by simp [closedShapeCount, h2],
             by simp [coordVals, h3], by simp [pointCountVals, h4]⟩

theorem cliCalibStep_ok_calib (flag : Bool) (idx : ℕ) (r : Elem) (o : List OutLine)
    (lg : List String) (h : cliCalibStep flag idx r = .ok (o, lg)) :
    ∀ x ∈ o, isCalibLine x = true := by
  unfold cliCalibStep at h
  cases hres : cliCalibResolve r with
  | error u => rw [hres] at h; simp at h
  | ok v =>
    rw [hres] at h
    match v with
    | none =>
      by_cases hf : flag
      · subst hf
        simp at h
        obtain ⟨ho, hlg⟩ := h
        subst ho
        intro x hx
        simp at hx
        rcases hx with rfl | rfl <;> rfl
      · simp [hf] at h
    | some ((x, y), CalSource.circle) =>
      simp at h
      obtain ⟨ho, hlg⟩ := h
      subst ho
      intro z hz
      simp at hz
      rcases hz with rfl | rfl <;> rfl
    | some ((x, y), CalSource.plist) =>
      simp at h
      obtain ⟨ho, hlg⟩ := h
      subst ho
      intro z hz
      simp at hz
      rcases hz with rfl | rfl <;> rfl

theorem cliCalibLoop_ok_calib (flag : Bool) :
    ∀ (i : ℕ) (rs : List Elem) (o : List OutLine) (lg : List String),
      cliCalibLoop flag i rs = .ok (o, lg) → ∀ x ∈ o, isCalibLine x = true := by
  intro i rs
  induction rs generalizing i with
  | nil =>
    intro o lg h
    simp [cliCalibLoop] at h
    obtain ⟨ho, hlg⟩ := h
    subst ho
    intro x hx
    simp at hx
  | cons r rest ih =>
    intro o lg h
    unfold cliCalibLoop at h
    cases hs : cliCalibStep flag i r with
    | error e => rw [hs] at h; simp at h
    | ok p =>
      obtain ⟨o1, l1⟩ := p
      rw [hs] at h
      cases hloop : cliCalibLoop flag (i + 1) rest with
      | error e2 => rw [hloop] at h; simp at h
      | ok p2 =>
        obtain ⟨o2, l2⟩ := p2
        rw [hloop] at h
        simp at h
        obtain ⟨ho, hlg⟩ := h
        subst ho
        intro x hx
        rcases List.mem_append.mp hx with hx | hx
        · exact cliCalibStep_ok_calib flag i r o1 l1 hs x hx
        · exact ih (i + 1) o2 l2 hloop x hx

theorem cliWritePoint_ok (i : ℕ) (p : Elem) (ls : List OutLine)
    (h : cliWritePoint i p = .ok ls) :
    ls = [OutLine.coordX (i + 1) (nmToUmD (ptRawCli p "x")),
          OutLine.coordY (i + 1) (nmToUmD (ptRawCli p "y"))] := by
  unfold cliWritePoint at h
  cases hx : getTag p "x" with
  | nil => rw [hx] at h; simp at h
  | cons xe xs =>
    cases hy : getTag p "y" with
    | nil => rw [hx, hy] at h; simp at h
    | cons ye ys =>
      rw [hx, hy] at h
      dsimp only at h
      cases hvx : cliPointVal xe with
      | none => rw [hvx] at h; simp at h
      | some x =>
        cases hvy : cliPointVal ye with
        | none => rw [hvx, hvy] at h; simp at h
        | some y =>
          rw [hvx, hvy] at h
          simp at h
          rw [← h]
          simp [ptRawCli, hx, hy, hvx, hvy]

theorem cliWritePoints_ok : ∀ (i : ℕ) (ps : List Elem) (o : List OutLine),
    cliWritePoints i ps = .ok o →
    coordVals o = seqJoin (fun p => [nmToUmD (ptRawCli p "x"), nmToUmD (ptRawCli p "y")]) ps ∧
    shapeCountVals o = [] ∧ closedShapeCount o = 0 ∧ pointCountVals o = [] := by
  intro i ps
  induction ps generalizing i with
  | nil =>
    intro o h
    simp [cliWritePoints] at h
    subst h
    exact ⟨rfl, rfl, rfl, rfl⟩
  | cons p ps ih =>
    intro o h
    unfold cliWritePoints at h
    cases hp : cliWritePoint i p with
    | error u => rw [hp] at h; simp at h
    | ok ls =>
      rw [hp] at h
      cases hrest : cliWritePoints (i + 1) ps with
      | error e => rw [hrest] at h; simp at h
      | ok ls2 =>
        rw [hrest] at h
        simp at h
        rw [← h]
        obtain ⟨hc, hs, hcl, hpc⟩ := ih (i + 1) ls2 hrest
        rw [cliWritePoint_ok i p ls hp]
        refine ⟨?_, ?_, ?_, ?_⟩ <;>
          simp [coordVals_append, shapeCountVals_append, closedShapeCount_append,
            pointCountVals_append, coordVals, shapeCountVals, closedShapeCount,
            pointCountVals, seqJoin, hc, hs, hcl, hpc]

theorem cliWriteShape_ok (s : ShapeData) (o : List OutLine) (lg : List String)
    (h : cliWriteShape s = .ok (o, lg)) :
    shapeCountVals o = [] ∧ closedShapeCount o = 1 ∧
    pointCountVals o = [s.pts.length] ∧
    coordVals o =
      seqJoin (fun p => [nmToUmD (ptRawCli p "x"), nmToUmD (ptRawCli p "y")]) s.pts := by
  unfold cliWriteShape at h
  cases hw : cliWritePoints 0 s.pts with
  | error ls => rw [hw] at h; simp at h
  | ok ls =>
    rw [hw] at h
    simp at h
    obtain ⟨ho, _⟩ := h
    rw [← ho]
    obtain ⟨hc, hsv, hcl, hpc⟩ := cliWritePoints_ok 0 s.pts ls hw
    refine ⟨?_, ?_, ?_, ?_⟩ <;>
      simp [coordVals_append, shapeCountVals_append, closedShapeCount_append,
        pointCountVals_append, coordVals, shapeCountVals, closedShapeCount,
        pointCountVals, hc, hsv, hcl, hpc]

theorem cliShapesLoop_ok : ∀ (ss : List ShapeData) (o : List OutLine) (lg : List String),
    cliShapesLoop ss = .ok (o, lg) →
    shapeCountVals o = [] ∧ closedShapeCount o = ss.length ∧
    pointCountVals o = ss.map (fun s => s.pts.length) ∧
    coordVals o =
      seqJoin (fun s =>
        seqJoin (fun p => [nmToUmD (ptRawCli p "x"), nmToUmD (ptRawCli p "y")]) s.pts) ss := by
  intro ss
  induction ss with
  | nil =>
    intro o lg h
    simp [cliShapesLoop] at h
    obtain ⟨ho, _⟩ := h
    subst ho
    exact ⟨rfl, rfl, rfl, rfl⟩
  | cons s ss ih =>
    intro o lg h
    unfold cliShapesLoop at h
    cases hs : cliWriteShape s with
    | error e => rw [hs] at h; simp at h
    | ok p =>
      obtain ⟨o1, l1⟩ := p
      rw [hs] at h
      cases hrest : cliShapesLoop ss with
      | error e => rw [hrest] at h; simp at h
      | ok p2 =>
        obtain ⟨o2, l2⟩ := p2
        rw [hrest] at h
        simp at h
        obtain ⟨ho, _⟩ := h
        subst ho
        obtain ⟨a1, a2, a3, a4⟩ := cliWriteShape_ok s o1 l1 hs
        obtain ⟨b1, b2, b3, b4⟩ := ih o2 l2 hrest
        refine ⟨?_, ?_, ?_, ?_⟩ <;>
          simp [coordVals_append, shapeCountVals_append, closedShapeCount_append,
            pointCountVals_append, seqJoin, Nat.add_comm, a1, a2, a3, a4, b1, b2, b3, b4]

theorem guiWritePoints_ok : ∀ (i : ℕ) (ps : List Elem) (o : List OutLine),
    guiWritePoints i ps = .ok o →
    shapeCountVals o = [] ∧ closedShapeCount o = 0 := by
  intro i ps
  induction ps generalizing i with
  | nil =>
    intro o h
    simp [guiWritePoints] at h
    subst h
    exact ⟨rfl, rfl⟩
  | cons p ps ih =>
    intro o h
    unfold guiWritePoints at h
    cases hvx : guiPointVal p "x" with
    | none => rw [hvx] at h; simp at h
    | some x =>
      cases hvy : guiPointVal p "y" with
      | none => rw [hvx, hvy] at h; simp at h
      | some y =>
        rw [hvx, hvy] at h
        cases hrest : guiWritePoints (i + 1) ps with
        | error e => rw [hrest] at h; simp at h
        | ok ls2 =>
          rw [hrest] at h
          simp at h
          rw [← h]
          obtain ⟨b1, b2⟩ := ih (i + 1) ls2 hrest
          exact ⟨by simp [shapeCountVals_append, shapeCountVals, b1],
                 by simp [closedShapeCount_append, closedShapeCount, b2]⟩

theorem guiWriteShape_ok (s : ShapeData) (o : List OutLine) (lg : List String)
    (h : guiWriteShape s = .ok (o, lg)) :
    shapeCountVals o = [] ∧ closedShapeCount o = 1 := by
  unfold guiWriteShape at h
  cases hpts : s.pts with
  | nil =>
    rw [hpts] at h
    simp at h
    obtain ⟨ho, _⟩ := h
    rw [← ho]
    exact ⟨rfl, rfl⟩
  | cons fp rest =>
    rw [hpts] at h
    dsimp only at h
    cases hvx : guiPointVal fp "x" with
    | none => rw [hvx] at h; simp at h
    | some fx =>
      cases hvy : guiPointVal fp "y" with
      | none => rw [hvx, hvy] at h; simp at h
      | some fy =>
        rw [hvx, hvy] at h
        cases hw : guiWritePoints 0 (fp :: rest) with
        | error ls => rw [hw] at h; simp at h
        | ok ls =>
          rw [hw] at h
          simp at h
          obtain ⟨ho, _⟩ := h
          rw [← ho]
          obtain ⟨b1, b2⟩ := guiWritePoints_ok 0 (fp :: rest) ls hw
          exact ⟨by simp [shapeCountVals_append, shapeCountVals, b1],
                 by simp [closedShapeCount_append, closedShapeCount, b2]⟩

theorem guiShapesLoop_ok : ∀ (ss : List ShapeData) (o : List OutLine) (lg : List String),
    guiShapesLoop ss = .ok (o, lg) →
    shapeCountVals o = [] ∧ closedShapeCount o = ss.length := by
  intro ss
  induction ss with
  | nil =>
    intro o lg h
    simp [guiShapesLoop] at h
    obtain ⟨ho, _⟩ := h
    subst ho
    exact ⟨rfl, rfl⟩
  | cons s ss ih =>
    intro o lg h
    unfold guiShapesLoop at h
    cases hs : guiWriteShape s with
    | error e => rw [hs] at h; simp at h
    | ok p =>
      obtain ⟨o1, l1⟩ := p
      rw [hs] at h
      cases hrest : guiShapesLoop ss with
      | error e => rw [hrest] at h; simp at h
      | ok p2 =>
        obtain ⟨o2, l2⟩ := p2
        rw [hrest] at h
        simp at h
        obtain ⟨ho, _⟩ := h
        subst ho
        obtain ⟨a1, a2⟩ := guiWriteShape_ok s o1 l1 hs
        obtain ⟨b1, b2⟩ := ih o2 l2 hrest
        exact ⟨by simp [shapeCountVals_append, a1, b1],
               by simp [closedShapeCount_append, a2, b2, Nat.add_comm]⟩

theorem guiCalibStep_ok_calib (i : ℕ) (r : Elem) (o : List OutLine)
    (lg : List String) (h : guiCalibStep i r = .ok (o, lg)) :
    ∀ x ∈ o, isCalibLine x = true := by
  unfold guiCalibStep at h
  cases hres : guiCalibResolve r with
  | none => rw [hres] at h; simp at h
  | some v =>
    rw [hres] at h
    match v with
    | ((x, y), CalSource.circle) =>
      simp at h
      obtain ⟨ho, hlg⟩ := h
      subst ho
      intro z hz
      simp at hz
      rcases hz with rfl | rfl <;> rfl
    | ((x, y), CalSource.plist) =>
      simp at h
      obtain ⟨ho, hlg⟩ := h
      subst ho
      intro z hz
      simp at hz
      rcases hz with rfl | rfl <;> rfl

theorem guiCalibLoop_ok_calib :
    ∀ (i : ℕ) (rs : List Elem) (o : List OutLine) (lg : List String),
      guiCalibLoop i rs = .ok (o, lg) → ∀ x ∈ o, isCalibLine x = true := by
  intro i rs
  induction rs generalizing i with
  | nil =>
    intro o lg h
    simp [guiCalibLoop] at h
    obtain ⟨ho, hlg⟩ := h
    subst ho
    intro x hx
    simp at hx
  | cons r rest ih =>
    intro o lg h
    unfold guiCalibLoop at h
    cases hs : guiCalibStep i r with
    | error e => rw [hs] at h; simp at h
    | ok p =>
      obtain ⟨o1, l1⟩ := p
      rw [hs] at h
      cases hloop : guiCalibLoop (i + 1) rest with
      | error e2 => rw [hloop] at h; simp at h
      | ok p2 =>
        obtain ⟨o2, l2⟩ := p2
        rw [hloop] at h
        simp at h
        obtain ⟨ho, hlg⟩ := h
        subst ho
        intro x hx
        rcases List.mem_append.mp hx with hx | hx
        · exact guiCalibStep_ok_calib i r o1 l1 hs x hx
        · exact ih (i + 1) o2 l2 hloop x hx

theorem cli_ok_structure (regions : List Elem) (flag : Bool)
    (hok : (convert_ndpa_to_lmd regions flag).ok = true) :
    ∃ o lg o2 lg2,
      cliCalibLoop flag 0 (regions.take 3) = .ok (o, lg) ∧
      cliShapesLoop (cliValidShapes regions) = .ok (o2, lg2) ∧
      (convert_ndpa_to_lmd regions flag).out =
        lmdHeader ++ o ++ [OutLine.shapeCount (cliValidShapes regions).length] ++ o2 ++
          [OutLine.closeImageData] := by
  by_cases h3 : regions.length < 3
  · simp [convert_ndpa_to_lmd, h3] at hok
  · cases hc : cliCalibLoop flag 0 (regions.take 3) with
    | error e =>
      obtain ⟨o, lg⟩ := e
      simp [convert_ndpa_to_lmd, h3, hc] at hok
    | ok p =>
      obtain ⟨o, lg⟩ := p
      cases hs : cliShapesLoop (cliValidShapes regions) with
      | error e =>
        obtain ⟨o2, lg2⟩ := e
        simp [convert_ndpa_to_lmd, h3, hc, hs] at hok
      | ok p2 =>
        obtain ⟨o2, lg2⟩ := p2
        refine ⟨o, lg, o2, lg2, rfl, rfl, ?_⟩
        simp [convert_ndpa_to_lmd, h3, hc, hs]

theorem gui_ok_structure (regions : List Elem)
    (hok : (convert_ndpa_file regions).ok = true) :
    ∃ o lg o2 lg2,
      guiCalibLoop 0 (regions.take 3) = .ok (o, lg) ∧
      guiShapesLoop (guiValidShapes regions) = .ok (o2, lg2) ∧
      (convert_ndpa_file regions).out =
        lmdHeader ++ o ++ [OutLine.shapeCount (guiValidShapes regions).length] ++ o2 ++
          [OutLine.closeImageData] := by
  by_cases h3 : regions.length < 3
  · simp [convert_ndpa_file, h3] at hok
  · cases hc : guiCalibLoop 0 (regions.take 3) with
    | error e =>
      obtain ⟨o, lg⟩ := e
      simp [convert_ndpa_file, h3, hc] at hok
    | ok p =>
      obtain ⟨o, lg⟩ := p
      cases hs : guiShapesLoop (guiValidShapes regions) with
      | error e =>
        obtain ⟨o2, lg2⟩ := e
        simp [convert_ndpa_file, h3, hc, hs] at hok
      | ok p2 =>
        obtain ⟨o2, lg2⟩ := p2
        refine ⟨o, lg, o2, lg2, rfl, rfl, ?_⟩
        simp [convert_ndpa_file, h3, hc, hs]

theorem csv_ok_iff (rawRows : List (List String)) :
    (convert_csv_file rawRows).ok = true ↔ 3 ≤ (csvData rawRows).length := by
  unfold convert_csv_file csvData
  set rows := rawRows.filter (fun r => !r.isEmpty) with hrows
  have hlen : (rows.drop 1).length = rows.length - 1 := by simp
  by_cases h4 : rows.length < 4
  · simp [h4]
    omega
  · simp [h4]
    rw [if_neg (by omega)]
    simp
    omega

theorem csv_structure (rawRows : List (List String))
    (h : 3 ≤ (csvData rawRows).length) :
    (convert_csv_file rawRows).out =
      lmdHeader ++ csvCalibFrom 0 ((csvData rawRows).take 3) ++
        [OutLine.shapeCount ((csvData rawRows).length - 3)] ++
        csvShapesFrom 0 ((csvData rawRows).drop 3) ++ [OutLine.closeImageData] := by
  unfold convert_csv_file
  unfold csvData at h
  set rows := rawRows.filter (fun r => !r.isEmpty) with hrows
  have hlen : (rows.drop 1).length = rows.length - 1 := by simp
  have h4 : ¬ rows.length < 4 := by omega
  simp only [h4, if_false, if_neg (by omega : ¬ (rows.drop 1).length < 3)]
  simp [csvData, Nat.max_eq_right]

theorem csvCalibFrom_vals : ∀ (i : ℕ) (l : List (List String)),
    calibVals (csvCalibFrom i l) = (seqJoin csvRowUms l).map pyRoundD ∧
    coordVals (csvCalibFrom i l) = [] ∧ shapeCountVals (csvCalibFrom i l) = [] ∧
    pointCountVals (csvCalibFrom i l) = [] ∧ closedShapeCount (csvCalibFrom i l) = 0 := by
  intro i l
  induction l generalizing i with
  | nil => exact ⟨rfl, rfl, rfl, rfl, rfl⟩
  | cons row rest ih =>
    obtain ⟨a1, a2, a3, a4, a5⟩ := ih (i + 1)
    refine ⟨?_, ?_, ?_, ?_, ?_⟩ <;>
      simp [csvCalibFrom, calibVals, coordVals, shapeCountVals, pointCountVals,
        closedShapeCount, seqJoin, csvRowUms, a1, a2, a3, a4, a5]

theorem csvShapesFrom_vals : ∀ (i : ℕ) (l : List (List String)),
    coordVals (csvShapesFrom i l) = (seqJoin csvRowUms l).map pyRoundD ∧
    calibVals (csvShapesFrom i l) = [] ∧ shapeCountVals (csvShapesFrom i l) = [] ∧
    pointCountVals (csvShapesFrom i l) = List.replicate l.length 1 ∧
    closedShapeCount (csvShapesFrom i l) = l.length := by
  intro i l
  induction l generalizing i with
  | nil => exact ⟨rfl, rfl, rfl, rfl, rfl⟩
  | cons row rest ih =>
    obtain ⟨a1, a2, a3, a4, a5⟩ := ih (i + 1)
    refine ⟨?_, ?_, ?_, ?_, ?_⟩ <;>
      simp [csvShapesFrom, calibVals, coordVals, shapeCountVals, pointCountVals,
        closedShapeCount, seqJoin, csvRowUms, List.replicate_succ, a1, a2, a3, a4, a5]

theorem csv_log (rawRows : List (List String)) :
    (convert_csv_file rawRows).log =
      csvLogOf ((rawRows.filter (fun r => !r.isEmpty)).length) := by
  unfold convert_csv_file csvLogOf
  set rows := rawRows.filter (fun r => !r.isEmpty) with hrows
  have hlen : (rows.drop 1).length = rows.length - 1 := by simp
  by_cases h4 : rows.length < 4
  · simp [h4]
  · rw [if_neg h4, if_neg h4]
    have h3 : ¬ (rows.drop 1).length < 3 := by omega
    rw [if_neg h3, if_neg (by omega : ¬ rows.length - 1 < 3)]
    have hnum : max 0 ((rows.drop 1).length - 3) = rows.length - 4 := by
      rw [hlen]; omega
    have h14 : rows.length - 1 - 3 = rows.length - 4 := by omega
    simp [hnum, h14]

theorem cliCalibStep_true_ok (idx : ℕ) (r : Elem) (h : pointlistCrashCli r = false) :
    ∃ o lg, cliCalibStep true idx r = .ok (o, lg) := by
  unfold cliCalibStep
  cases hres : cliCalibResolve r with
  | error u =>
    exfalso
    unfold cliCalibResolve at hres
    unfold pointlistCrashCli at h
    cases hc : circleTryCli r with
    | some p => rw [hc] at hres; simp at hres
    | none =>
      rw [hc] at hres
      cases hp : pointlistTryCli r with
      | error u2 => rw [hp] at h; simp at h
      | ok w => rw [hp] at hres; cases w <;> simp at hres
  | ok v =>
    match v with
    | none => exact ⟨_, _, rfl⟩
    | some ((x, y), CalSource.circle) => exact ⟨_, _, rfl⟩
    | some ((x, y), CalSource.plist) => exact ⟨_, _, rfl⟩

theorem cliCalibStep_true_missing (idx : ℕ) (r : Elem) (hm : calibMissingCli r = true) :
    ∀ o lg, cliCalibStep true idx r = .ok (o, lg) →
      o = [OutLine.calibX (idx + 1) 0, OutLine.calibY (idx + 1) 0] ∧
      "  WARNING: Using placeholder coordinates (0,0) - LMD system may malfunction!" ∈ lg := by
  intro o lg h
  unfold calibMissingCli at hm
  unfold cliCalibStep at h
  cases hres : cliCalibResolve r with
  | error u => rw [hres] at hm; simp at hm
  | ok v =>
    rcases v with _ | ⟨p, src⟩
    · rw [hres] at h
      simp at h
      obtain ⟨ho, hlg⟩ := h
      subst ho
      refine ⟨rfl, ?_⟩
      rw [← hlg]
      simp
    · rw [hres] at hm
      simp at hm

theorem cliCalibLoop_true_ok : ∀ (i : ℕ) (rs : List Elem),
    (∀ r ∈ rs, pointlistCrashCli r = false) →
    ∃ o lg, cliCalibLoop true i rs = .ok (o, lg) := by
  intro i rs
  induction rs generalizing i with
  | nil => intro _; exact ⟨[], [], rfl⟩
  | cons r rest ih =>
    intro h
    obtain ⟨o1, l1, h1⟩ := cliCalibStep_true_ok i r (h r (List.mem_cons_self r rest))
    obtain ⟨o2, l2, h2⟩ := ih (i + 1) (fun x hx => h x (List.mem_cons_of_mem r hx))
    refine ⟨o1 ++ o2, l1 ++ l2, ?_⟩
    unfold cliCalibLoop
    rw [h1, h2]

theorem cliCalibLoop_true_missing : ∀ (rs : List Elem) (i k : ℕ),
    k < rs.length →
    calibMissingCli (rs.getD k (Elem.mk "" none [])) = true →
    ∀ o lg, cliCalibLoop true i rs = .ok (o, lg) →
      OutLine.calibX (i + k + 1) 0 ∈ o ∧ OutLine.calibY (i + k + 1) 0 ∈ o ∧
      "  WARNING: Using placeholder coordinates (0,0) - LMD system may malfunction!" ∈ lg := by
  intro rs
  induction rs with
  | nil => intro i k hk; simp at hk
  | cons r rest ih =>
    intro i k hk hmiss o lg h
    unfold cliCalibLoop at h
    cases hs : cliCalibStep true i r with
    | error e => rw [hs] at h; simp at h
    | ok p =>
      obtain ⟨o1, l1⟩ := p
      rw [hs] at h
      cases hloop : cliCalibLoop true (i + 1) rest with
      | error e2 => rw [hloop] at h; simp at h
      | ok p2 =>
        obtain ⟨o2, l2⟩ := p2
        rw [hloop] at h
        simp at h
        obtain ⟨ho, hlg⟩ := h
        subst ho
        subst hlg
        cases k with
        | zero =>
          obtain ⟨ho1, hwarn⟩ :=
            cliCalibStep_true_missing i r (by simpa using hmiss) o1 l1 hs
          subst ho1
          exact ⟨by simp, by simp, List.mem_append_left l2 hwarn⟩
        | succ k2 =>
          have hk2 : k2 < rest.length := by simpa using hk
          have hmiss2 : calibMissingCli (rest.getD k2 (Elem.mk "" none [])) = true := by
            simpa using hmiss
          obtain ⟨m1, m2, m3⟩ := ih (i + 1) k2 hk2 hmiss2 o2 l2 hloop
          have harith : i + 1 + k2 + 1 = i + (k2 + 1) + 1 := by omega
          rw [harith] at m1 m2
          exact ⟨List.mem_append_right o1 m1, List.mem_append_right o1 m2,
                 List.mem_append_right l1 m3⟩

theorem seqJoin_map {α β γ : Type} (g : β → γ) (f : α → List β) (l : List α) :
    (seqJoin f l).map g = seqJoin (fun a => (f a).map g) l := by
  induction l with
  | nil => rfl
  | cons a t ih => simp [seqJoin, ih]

theorem seqJoin_csvRowUms_length (l : List (List String)) :
    (seqJoin csvRowUms l).length = 2 * l.length := by
  induction l with
  | nil => rfl
  | cons a t ih =>
    simp [seqJoin, csvRowUms, ih]
    omega

/-- C1: for every XML input on which conversion succeeds (CLI and GUI), the
`ShapeCount` value written equals the number of surviving shape candidates
(regions at index ≥ 3 that yield at least one extractable point), and exactly
that many `Shape_N` blocks are emitted — never the region count minus 3 or
any precomputed estimate. -/
theorem c1_shapeCount_matches_survivors (regions : List Elem) (flag : Bool) :
    ((convert_ndpa_to_lmd regions flag).ok = true →
      shapeCountVals (convert_ndpa_to_lmd regions flag).out =
        [(cliValidShapes regions).length] ∧
      closedShapeCount (convert_ndpa_to_lmd regions flag).out =
        (cliValidShapes regions).length) ∧
    ((convert_ndpa_file regions).ok = true →
      shapeCountVals (convert_ndpa_file regions).out = [(guiValidShapes regions).length] ∧
      closedShapeCount (convert_ndpa_file regions).out = (guiValidShapes regions).length) := by
  constructor
  · intro hok
    obtain ⟨o, lg, o2, lg2, hc, hs, hout⟩ := cli_ok_structure regions flag hok
    obtain ⟨m1, m2, m3, m4⟩ := metrics_calib o (cliCalibLoop_ok_calib flag 0 _ o lg hc)
    obtain ⟨s1, s2, s3, s4⟩ := cliShapesLoop_ok _ o2 lg2 hs
    rw [hout]
    constructor <;>
      simp [shapeCountVals_append, closedShapeCount_append, lmdHeader,
        shapeCountVals, closedShapeCount, m1, m2, s1, s2]
  · intro hok
    obtain ⟨o, lg, o2, lg2, hc, hs, hout⟩ := gui_ok_structure regions hok
    obtain ⟨m1, m2, m3, m4⟩ := metrics_calib o (guiCalibLoop_ok_calib 0 _ o lg hc)
    obtain ⟨s1, s2⟩ := guiShapesLoop_ok _ o2 lg2 hs
    rw [hout]
    constructor <;>
      simp [shapeCountVals_append, closedShapeCount_append, lmdHeader,
        shapeCountVals, closedShapeCount, m1, m2, s1, s2]

theorem c1_witness :
    shapeCountVals (convert_ndpa_to_lmd demoGap false).out =
      [(cliValidShapes demoGap).length] ∧
    closedShapeCount (convert_ndpa_to_lmd demoGap false).out =
      (cliValidShapes demoGap).length ∧
    shapeCountVals (convert_ndpa_file demoGap).out = [(guiValidShapes demoGap).length] ∧
    closedShapeCount (convert_ndpa_file demoGap).out = (guiValidShapes demoGap).length := by
  obtain ⟨h1, h2⟩ := c1_shapeCount_matches_survivors demoGap false
  obtain ⟨a1, a2⟩ := h1 (by decide)
  obtain ⟨b1, b2⟩ := h2 (by decide)
  exact ⟨a1, a2, b1, b2⟩

/-- C2 (the code violates the claim): on the repository's own GUI-test fixture
where region index 3 carries no points and region index 4 is a real shape,
both converters write `ShapeCount` 1 but emit the surviving shape as
`Shape_2` — the numbering reflects the original region index, so the numbers
are not `1..ShapeCount` and `Shape_1` does not exist. -/
theorem c2_gap_numbering_eval :
    (convert_ndpa_file demoGap).ok = true ∧
    shapeCountVals (convert_ndpa_file demoGap).out = [1] ∧
    OutLine.shapeOpen 2 ∈ (convert_ndpa_file demoGap).out ∧
    OutLine.shapeOpen 1 ∉ (convert_ndpa_file demoGap).out ∧
    (convert_ndpa_to_lmd demoGap false).ok = true ∧
    shapeCountVals (convert_ndpa_to_lmd demoGap false).out = [1] ∧
    OutLine.shapeOpen 2 ∈ (convert_ndpa_to_lmd demoGap false).out ∧
    OutLine.shapeOpen 1 ∉ (convert_ndpa_to_lmd demoGap false).out := by
  decide

/-- C3 (the code violates the claim): with a calibration region that has no
resolvable coordinates and the default policy, both converters return False
but the output file has already been created and is left on disk holding the
partial header. -/
theorem c3_partial_file_left_eval :
    (convert_ndpa_to_lmd demoMissing false).ok = false ∧
    (convert_ndpa_to_lmd demoMissing false).fileCreated = true ∧
    (convert_ndpa_to_lmd demoMissing false).out ≠ [] ∧
    (convert_ndpa_file demoMissing).ok = false ∧
    (convert_ndpa_file demoMissing).fileCreated = true ∧
    (convert_ndpa_file demoMissing).out ≠ [] := by
  decide

/-- C4: every XML shape coordinate written equals `nmToUm` of the source
nanometre value (round half to even after dividing by 1000), and every CSV
value written (calibration and shape) equals `pyRound` of the source
micrometre value with no division. -/
theorem c4_unit_conversion (regions : List Elem) (flag : Bool)
    (rawRows : List (List String)) :
    ((convert_ndpa_to_lmd regions flag).ok = true →
      coordVals (convert_ndpa_to_lmd regions flag).out =
        (cliRawVals regions).map (fun d => nmToUm d.toRat)) ∧
    ((convert_csv_file rawRows).ok = true →
      calibVals (convert_csv_file rawRows).out =
        (seqJoin csvRowUms ((csvData rawRows).take 3)).map (fun d => pyRound d.toRat) ∧
      coordVals (convert_csv_file rawRows).out =
        (seqJoin csvRowUms ((csvData rawRows).drop 3)).map (fun d => pyRound d.toRat)) := by
  have hfun : pyRoundD = fun d => pyRound d.toRat := funext pyRoundD_eq
  constructor
  · intro hok
    obtain ⟨o, lg, o2, lg2, hc, hs, hout⟩ := cli_ok_structure regions flag hok
    obtain ⟨m1, m2, m3, m4⟩ := metrics_calib o (cliCalibLoop_ok_calib flag 0 _ o lg hc)
    obtain ⟨s1, s2, s3, s4⟩ := cliShapesLoop_ok _ o2 lg2 hs
    have hmap : (cliRawVals regions).map (fun d => nmToUm d.toRat) =
        seqJoin (fun s =>
          seqJoin (fun p => [nmToUmD (ptRawCli p "x"), nmToUmD (ptRawCli p "y")]) s.pts)
          (cliValidShapes regions) := by
      rw [cliRawVals, seqJoin_map]
      congr 1
      funext s
      rw [seqJoin_map]
      congr 1
      funext p
      simp [nmToUmD_eq]
    rw [hout, hmap]
    simp [coordVals_append, lmdHeader, coordVals, m3, s4]
  · intro hok
    have h3 : 3 ≤ (csvData rawRows).length := (csv_ok_iff rawRows).mp hok
    have hout := csv_structure rawRows h3
    obtain ⟨a1, a2, a3, a4, a5⟩ := csvCalibFrom_vals 0 ((csvData rawRows).take 3)
    obtain ⟨b1, b2, b3, b4, b5⟩ := csvShapesFrom_vals 0 ((csvData rawRows).drop 3)
    rw [hfun] at a1 b1
    constructor <;>
      rw [hout] <;>
      simp [calibVals_append, coordVals_append, lmdHeader, calibVals, coordVals,
        a1, a2, b1, b2]

theorem c4_witness :
    coordVals (convert_ndpa_to_lmd demoGap false).out =
      (cliRawVals demoGap).map (fun d => nmToUm d.toRat) ∧
    calibVals (convert_csv_file csvGood).out =
      (seqJoin csvRowUms ((csvData csvGood).take 3)).map (fun d => pyRound d.toRat) ∧
    coordVals (convert_csv_file csvGood).out =
      (seqJoin csvRowUms ((csvData csvGood).drop 3)).map (fun d => pyRound d.toRat) := by
  obtain ⟨h1, h2⟩ := c4_unit_conversion demoGap false csvGood
  obtain ⟨b1, b2⟩ := h2 (by decide)
  exact ⟨h1 (by decide), b1, b2⟩

/-- C5: with at least 3 regions, a calibration region (index `i < 3`) that
both strategies fail to resolve, no `IndexError` among the calibration
regions and a shape pass that raises nothing, the CLI conversion under
`allow_missing_calibration = true` succeeds, writes that calibration pair as
`(0, 0)`, and logs the placeholder warning. -/
theorem c5_placeholder_policy (regions : List Elem) (i : ℕ)
    (h3 : ¬ regions.length < 3)
    (hi : i < (regions.take 3).length)
    (hmiss : calibMissingCli ((regions.take 3).getD i (Elem.mk "" none [])) = true)
    (hnoc : ∀ r ∈ regions.take 3, pointlistCrashCli r = false)
    (hsh : cliShapesOk regions = true) :
    (convert_ndpa_to_lmd regions true).ok = true ∧
    OutLine.calibX (i + 1) 0 ∈ (convert_ndpa_to_lmd regions true).out ∧
    OutLine.calibY (i + 1) 0 ∈ (convert_ndpa_to_lmd regions true).out ∧
    "  WARNING: Using placeholder coordinates (0,0) - LMD system may malfunction!" ∈
      (convert_ndpa_to_lmd regions true).log := by
  obtain ⟨o, lg, hcal⟩ := cliCalibLoop_true_ok 0 (regions.take 3) hnoc
  have hshloop : ∃ o2 lg2, cliShapesLoop (cliValidShapes regions) = .ok (o2, lg2) := by
    unfold cliShapesOk at hsh
    cases hx : cliShapesLoop (cliValidShapes regions) with
    | error e => rw [hx] at hsh; simp at hsh
    | ok p => exact ⟨p.1, p.2, rfl⟩
  obtain ⟨o2, lg2, hsl⟩ := hshloop
  obtain ⟨m1, m2, m3⟩ := cliCalibLoop_true_missing (regions.take 3) 0 i hi hmiss o lg hcal
  have hidx : 0 + i + 1 = i + 1 := by omega
  rw [hidx] at m1 m2
  have hok : (convert_ndpa_to_lmd regions true).ok = true := by
    simp [convert_ndpa_to_lmd, h3, hcal, hsl]
  have hout : (convert_ndpa_to_lmd regions true).out =
      lmdHeader ++ o ++ [OutLine.shapeCount (cliValidShapes regions).length] ++ o2 ++
        [OutLine.closeImageData] := by
    simp [convert_ndpa_to_lmd, h3, hcal, hsl]
  refine ⟨hok, ?_, ?_, ?_⟩
  · rw [hout]
    simp only [List.mem_append]
    tauto
  · rw [hout]
    simp only [List.mem_append]
    tauto
  · have hlog : (convert_ndpa_to_lmd regions true).log =
        ([s!"Found {regions.length} regions in the file"] ++
          (if regions.length < 4 then
            [s!"WARNING: Found only {regions.length} regions. Need at least 4 (3 calibration + 1 shape)",
             "Proceeding with available regions..."]
          else []) ++ ["\nProcessing calibration points..."]) ++ lg ++
          ([s!"\nProcessing {(cliValidShapes regions).length} capture shapes..."] ++ lg2 ++
           ["\n✓ Conversion complete!",
            s!"  Total regions processed: {regions.length}",
            "    - 3 calibration/reference points",
            s!"    - {(cliValidShapes regions).length} capture shapes"]) := by
      simp [convert_ndpa_to_lmd, h3, hcal, hsl]
    rw [hlog]
    simp only [List.mem_append]
    tauto

theorem c5_witness :
    (convert_ndpa_to_lmd demoMissing true).ok = true ∧
    OutLine.calibX 1 0 ∈ (convert_ndpa_to_lmd demoMissing true).out ∧
    OutLine.calibY 1 0 ∈ (convert_ndpa_to_lmd demoMissing true).out ∧
    "  WARNING: Using placeholder coordinates (0,0) - LMD system may malfunction!" ∈
      (convert_ndpa_to_lmd demoMissing true).log :=
  c5_placeholder_policy demoMissing 0 (by decide) (by decide) (by decide) (by decide)
    (by decide)

/-- C6 (counterexample to the claim as worded): on a region whose first
`annotation` holds `x`/`y` only as deeper descendants plus a pointlist, the
code resolves `(5000, 6000)` from the nested descendants via the circle
strategy, while the claim's "direct x/y children then pointlist fallback"
reading resolves `(7000, 8000)` from the pointlist. -/
theorem c6_counter :
    (guiCalibResolve nestedCalRegion).map Prod.fst = some (5000, 6000) ∧
    (specCalibResolve nestedCalRegion).map Prod.fst = some (7000, 8000) ∧
    guiCalibResolve nestedCalRegion ≠ specCalibResolve nestedCalRegion := by
  decide

/-- C6 (amended): calibration extraction tries the circle strategy first —
reading the first `x`/`y` element DESCENDANTS of the region's first
`annotation` element, not only its direct children — and falls back to the
pointlist strategy only when the circle strategy yields no parseable pair;
the pair is missing exactly when both strategies fail (GUI and CLI). -/
theorem c6_strategy_order (r : Elem) :
    (∀ p, circleTryGui r = some p → guiCalibResolve r = some (p, CalSource.circle)) ∧
    (∀ p, circleTryGui r = none → pointlistTryGui r = some p →
      guiCalibResolve r = some (p, CalSource.plist)) ∧
    (guiCalibResolve r = none ↔ circleTryGui r = none ∧ pointlistTryGui r = none) ∧
    (∀ p, circleTryCli r = some p → cliCalibResolve r = .ok (some (p, CalSource.circle))) ∧
    (∀ p, circleTryCli r = none → pointlistTryCli r = .ok (some p) →
      cliCalibResolve r = .ok (some (p, CalSource.plist))) ∧
    (cliCalibResolve r = .ok none ↔
      circleTryCli r = none ∧ pointlistTryCli r = .ok none) := by
  refine ⟨?_, ?_, ?_, ?_, ?_, ?_⟩
  · intro p hp
    unfold guiCalibResolve
    rw [hp]
  · intro p hc hp
    unfold guiCalibResolve
    rw [hc, hp]
  · unfold guiCalibResolve
    cases hc : circleTryGui r with
    | some p => simp
    | none =>
      cases hp : pointlistTryGui r with
      | some p => simp
      | none => simp
  · intro p hp
    unfold cliCalibResolve
    rw [hp]
  · intro p hc hp
    unfold cliCalibResolve
    rw [hc, hp]
  · unfold cliCalibResolve
    cases hc : circleTryCli r with
    | some p => simp
    | none =>
      cases hp : pointlistTryCli r with
      | error u => simp
      | ok w => cases w <;> simp

theorem c6_witness :
    guiCalibResolve (calRegion "Cal_1" "100000000" "200000000") =
      some ((100000, 200000), CalSource.circle) ∧
    guiCalibResolve bareRegion = some ((300000, 400000), CalSource.plist) ∧
    cliCalibResolve (Elem.mk "ndpviewstate" none []) = .ok none := by
  refine ⟨?_, ?_, ?_⟩
  · exact (c6_strategy_order (calRegion "Cal_1" "100000000" "200000000")).1
      (100000, 200000) (by decide)
  · exact (c6_strategy_order bareRegion).2.1 (300000, 400000) (by decide) (by decide)
  · exact (c6_strategy_order (Elem.mk "ndpviewstate" none [])).2.2.2.2.2.mpr
      ⟨by decide, by rfl⟩

/-- C7: an XML input with fewer than 3 regions fails in both converters, and a
CSV input with fewer than 3 data rows (after discarding blank records and the
header) fails, in every case with no output file created. -/
theorem c7_insufficient_input_fails (regions : List Elem) (flag : Bool)
    (rawRows : List (List String)) :
    (regions.length < 3 →
      (convert_ndpa_to_lmd regions flag).ok = false ∧
      (convert_ndpa_to_lmd regions flag).fileCreated = false ∧
      (convert_ndpa_file regions).ok = false ∧
      (convert_ndpa_file regions).fileCreated = false) ∧
    ((csvData rawRows).length < 3 →
      (convert_csv_file rawRows).ok = false ∧
      (convert_csv_file rawRows).fileCreated = false) := by
  constructor
  · intro h
    refine ⟨?_, ?_, ?_, ?_⟩ <;> simp [convert_ndpa_to_lmd, convert_ndpa_file, h]
  · intro h
    unfold csvData at h
    unfold convert_csv_file
    set rows := rawRows.filter (fun r => !r.isEmpty) with hrows
    have hlen : (rows.drop 1).length = rows.length - 1 := by simp
    rw [hlen] at h
    have h4 : rows.length < 4 := by omega
    simp [h4]

theorem c7_witness :
    (convert_ndpa_to_lmd [calRegion "Cal_1" "1" "2"] false).ok = false ∧
    (convert_ndpa_to_lmd [calRegion "Cal_1" "1" "2"] false).fileCreated = false ∧
    (convert_ndpa_file [calRegion "Cal_1" "1" "2"]).ok = false ∧
    (convert_ndpa_file [calRegion "Cal_1" "1" "2"]).fileCreated = false ∧
    (convert_csv_file [["A", "B"], ["1", "2"]]).ok = false ∧
    (convert_csv_file [["A", "B"], ["1", "2"]]).fileCreated = false := by
  obtain ⟨h1, h2⟩ :=
    c7_insufficient_input_fails [calRegion "Cal_1" "1" "2"] false [["A", "B"], ["1", "2"]]
  obtain ⟨a1, a2, a3, a4⟩ := h1 (by decide)
  obtain ⟨b1, b2⟩ := h2 (by decide)
  exact ⟨a1, a2, a3, a4, b1, b2⟩

/-- C8 (counterexample to the claim's "logs a warning"): on a CSV whose first
data row has only 3 columns, the conversion succeeds and substitutes
`(0, 0)` for that calibration pair, but the log is identical to that of the
same file with a fully valid zero row — no warning about the row is
logged. -/
theorem c8_counter :
    (convert_csv_file csvBad).ok = true ∧
    OutLine.calibX 1 0 ∈ (convert_csv_file csvBad).out ∧
    OutLine.calibY 1 0 ∈ (convert_csv_file csvBad).out ∧
    (convert_csv_file csvBad).log = (convert_csv_file csvGood).log := by
  decide

/-- C8 (amended): a CSV data row with fewer than 7 columns, or whose column 5
or 6 does not parse, is substituted by the pair `(0, 0)` and never fails the
conversion — but no per-row warning is logged: the log depends only on the
number of nonblank records. -/
theorem c8_soft_fail (rawRows rawRows2 : List (List String))
    (h : 3 ≤ (csvData rawRows).length)
    (hlen : (rawRows2.filter (fun r => !r.isEmpty)).length =
      (rawRows.filter (fun r => !r.isEmpty)).length) :
    (convert_csv_file rawRows).ok = true ∧
    calibVals (convert_csv_file rawRows).out =
      (seqJoin csvRowUms ((csvData rawRows).take 3)).map pyRoundD ∧
    (∀ row : List String, row.length < 7 → rowPair row = (⟨0, 0⟩, ⟨0, 0⟩)) ∧
    (∀ row : List String,
      pyFloat? (row.getD 5 "") = none ∨ pyFloat? (row.getD 6 "") = none →
      rowPair row = (⟨0, 0⟩, ⟨0, 0⟩)) ∧
    (convert_csv_file rawRows2).log = (convert_csv_file rawRows).log := by
  have hok := (csv_ok_iff rawRows).mpr h
  have hout := csv_structure rawRows h
  obtain ⟨a1, a2, a3, a4, a5⟩ := csvCalibFrom_vals 0 ((csvData rawRows).take 3)
  obtain ⟨b1, b2, b3, b4, b5⟩ := csvShapesFrom_vals 0 ((csvData rawRows).drop 3)
  refine ⟨hok, ?_, ?_, ?_, ?_⟩
  · rw [hout]
    simp [calibVals_append, lmdHeader, calibVals, a1, b2]
  · intro row hr
    rw [rowPair, if_neg (by omega)]
  · intro row hp
    by_cases h7 : row.length ≥ 7
    · rcases hp with hp | hp
      · rw [rowPair, if_pos h7, hp]
      · rw [rowPair, if_pos h7, hp]
        cases hx : pyFloat? (row.getD 5 "") <;> rfl
    · rw [rowPair, if_neg h7]
  · rw [csv_log, csv_log, hlen]

theorem c8_witness :
    (convert_csv_file csvBad).ok = true ∧
    calibVals (convert_csv_file csvBad).out =
      (seqJoin csvRowUms ((csvData csvBad).take 3)).map pyRoundD ∧
    rowPair ["1", "2", "3"] = (⟨0, 0⟩, ⟨0, 0⟩) ∧
    rowPair ["1", "2", "3", "4", "5", "abc", "200"] = (⟨0, 0⟩, ⟨0, 0⟩) ∧
    (convert_csv_file csvGood).log = (convert_csv_file csvBad).log := by
  obtain ⟨h1, h2, h3, h4, h5⟩ := c8_soft_fail csvBad csvGood (by decide) (by decide)
  exact ⟨h1, h2, h3 ["1", "2", "3"] (by decide),
         h4 ["1", "2", "3", "4", "5", "abc", "200"] (Or.inl (by decide)), h5⟩

/-- C9 (counterexample): `_get_element_text` on an element whose text is
whitespace-only returns the empty string, not `"0"`, and a shape point
carrying such text makes the GUI conversion fail. -/
theorem c9_counter :
    get_element_text (some (Elem.mk "x" (some "   ") [])) = "" ∧
    (convert_ndpa_file demoWs).ok = false ∧
    (convert_ndpa_file demoWs).fileCreated = true := by
  decide

/-- C9 (amended): a missing element, a missing text child and missing data are
all read as `"0"`; but nonempty text is stripped and returned as is, so empty
or whitespace-only text yields `""`, which does not parse as a number (and in
shape-point extraction aborts the conversion, as `c9_counter` shows). -/
theorem c9_text_extraction :
    get_element_text none = "0" ∧
    (∀ t ks, get_element_text (some (Elem.mk t none ks)) = "0") ∧
    (∀ t s ks, strTrim s = "" →
      get_element_text (some (Elem.mk t (some s) ks)) = "" ∧
      pyFloat? (get_element_text (some (Elem.mk t (some s) ks))) = none) ∧
    (∀ t s ks, get_element_text (some (Elem.mk t (some s) ks)) = strTrim s) := by
  refine ⟨rfl, fun t ks => rfl, ?_, fun t s ks => rfl⟩
  intro t s ks hs
  have hg : get_element_text (some (Elem.mk t (some s) ks)) = strTrim s := rfl
  rw [hg, hs]
  exact ⟨rfl, rfl⟩

theorem c9_witness :
    get_element_text (some (Elem.mk "x" (some " ") [])) = "" ∧
    pyFloat? (get_element_text (some (Elem.mk "x" (some " ") []))) = none :=
  (c9_text_extraction.2.2.1 "x" " " [] (by decide))

/-- C10: for every CSV input on which conversion succeeds, the emitted
`ShapeCount` equals the number of data rows minus 3, exactly that many shape
blocks are written, each with `PointCount` 1 and a single coordinate pair —
no CSV candidate is ever dropped. -/
theorem c10_csv_shapes (rawRows : List (List String))
    (h : 3 ≤ (csvData rawRows).length) :
    (convert_csv_file rawRows).ok = true ∧
    shapeCountVals (convert_csv_file rawRows).out = [(csvData rawRows).length - 3] ∧
    closedShapeCount (convert_csv_file rawRows).out = (csvData rawRows).length - 3 ∧
    pointCountVals (convert_csv_file rawRows).out =
      List.replicate ((csvData rawRows).length - 3) 1 ∧
    (coordVals (convert_csv_file rawRows).out).length =
      2 * ((csvData rawRows).length - 3) := by
  have hok := (csv_ok_iff rawRows).mpr h
  have hout := csv_structure rawRows h
  obtain ⟨a1, a2, a3, a4, a5⟩ := csvCalibFrom_vals 0 ((csvData rawRows).take 3)
  obtain ⟨b1, b2, b3, b4, b5⟩ := csvShapesFrom_vals 0 ((csvData rawRows).drop 3)
  have hdl : ((csvData rawRows).drop 3).length = (csvData rawRows).length - 3 := by simp
  refine ⟨hok, ?_, ?_, ?_, ?_⟩ <;> rw [hout]
  · simp [shapeCountVals_append, lmdHeader, shapeCountVals, a3, b3]
  · simp [closedShapeCount_append, lmdHeader, closedShapeCount, a5, b5, hdl]
  · simp [pointCountVals_append, lmdHeader, pointCountVals, a4, b4, hdl]
  · simp [coordVals_append, lmdHeader, coordVals, a2, b1, seqJoin_csvRowUms_length, hdl]

theorem c10_witness :
    (convert_csv_file csvGood).ok = true ∧
    shapeCountVals (convert_csv_file csvGood).out = [(csvData csvGood).length - 3] ∧
    closedShapeCount (convert_csv_file csvGood).out = (csvData csvGood).length - 3 ∧
    pointCountVals (convert_csv_file csvGood).out =
      List.replicate ((csvData csvGood).length - 3) 1 ∧
    (coordVals (convert_csv_file csvGood).out).length =
      2 * ((csvData csvGood).length - 3) :=
  c10_csv_shapes csvGood (by decide)
